import Mathlib

/-!
Verification development for the forest HTTP toolkit: a shallow embedding of
the path-template router (`forest/routers.py`) and of the per-connection HTTP
protocol state machine (`forest/protocol.py`), together with theorems about
the behaviours documented in the specification.

Conventions of the embedding:
* Python `str` / `bytes` values are modelled as Lean `String` (equivalently
  `List Char` where list reasoning is needed).
* Python exceptions are modelled by `Except String` results; the carried
  string is the exception message.
* The external byte-stream tokenizer (`httptools.HttpRequestParser`) is an
  external collaborator: its parse events are inputs to the state machine,
  and its queries (`should_keep_alive`, version, method) are oracle data.
-/

namespace Forest

/-! ## urllib.parse.quote (used by `regexp` in routers.py to escape literals) -/

/-- Characters `urllib.parse.quote` leaves unescaped with the default
`safe='/'`: ASCII letters, digits, and `_ . - ~ /`. -/
def quoteSafeChar (c : Char) : Bool :=
  (decide ('A' ≤ c) && decide (c ≤ 'Z')) ||
  (decide ('a' ≤ c) && decide (c ≤ 'z')) ||
  (decide ('0' ≤ c) && decide (c ≤ '9')) ||
  c == '_' || c == '.' || c == '-' || c == '~' || c == '/'

/-- Upper-case hex digit of a value below 16 (percent-encoding digit). -/
def hexDigit (n : Nat) : Char :=
  if n < 10 then Char.ofNat ('0'.toNat + n) else Char.ofNat ('A'.toNat + n - 10)

/-- UTF-8 bytes of a character (quote percent-encodes the UTF-8 encoding). -/
def utf8Bytes (c : Char) : List Nat :=
  let n := c.toNat
  if n < 0x80 then [n]
  else if n < 0x800 then
    [0xC0 ||| (n >>> 6), 0x80 ||| (n &&& 0x3F)]
  else if n < 0x10000 then
    [0xE0 ||| (n >>> 12), 0x80 ||| ((n >>> 6) &&& 0x3F), 0x80 ||| (n &&& 0x3F)]
  else
    [0xF0 ||| (n >>> 18), 0x80 ||| ((n >>> 12) &&& 0x3F),
     0x80 ||| ((n >>> 6) &&& 0x3F), 0x80 ||| (n &&& 0x3F)]

/-- Percent-encoding of one byte, `%XX`. -/
def pctEncode (b : Nat) : List Char :=
  ['%', hexDigit (b / 16), hexDigit (b % 16)]

/-- Quote a single character: kept if safe, otherwise percent-encoded. -/
def quoteChar (c : Char) : List Char :=
  if quoteSafeChar c then [c] else (utf8Bytes c).flatMap pctEncode

/-- `urllib.parse.quote` with the default `safe='/'`, over character lists. -/
def quote (s : List Char) : List Char :=
  s.flatMap quoteChar

/-! ## braceIndices (routers.py)

Mirrors the scanning loop of `braceIndices`: `level` counts brace nesting,
a top-level `{...}` span is recorded as a pair of indices, and a closing
brace that drives the level negative raises `ValueError`.  Note that the
source performs no check for a positive level left over at the end of the
string, so an unmatched opening brace is NOT an error. -/

def braceIndicesAux : List Char → Nat → Int → Nat → List (Nat × Nat) →
    Except String (List (Nat × Nat))
  | [], _, _, _, idxs => .ok idxs
  | c :: rest, i, level, idx, idxs =>
    if c = '\x7b' then
      braceIndicesAux rest (i + 1) (level + 1)
        (if level + 1 = 1 then i else idx) idxs
    else if c = '\x7d' then
      if level - 1 = 0 then
        braceIndicesAux rest (i + 1) (level - 1) idx (idxs ++ [(idx, i + 1)])
      else if level - 1 < 0 then
        .error ("unbalanced braces in " ++ String.mk [c])
      else
        braceIndicesAux rest (i + 1) (level - 1) idx idxs
    else
      braceIndicesAux rest (i + 1) level idx idxs

/-- `braceIndices(string)` of routers.py. -/
def braceIndices (s : List Char) : Except String (List (Nat × Nat)) :=
  braceIndicesAux s 0 0 0 []

/-! ## A regex engine for the fragment of Python `re` used by compiled routes

`regexp` in routers.py builds a pattern string `'^' + quote(literal) +
"(?P<name>patt)" + ...` and hands it to `re.compile`; `RouteRegexp.match`
then calls `compiled.match(path)` (anchored at the start of the path, not at
the end) and `Route.match` extracts captures with `compiled.findall(path)`.
We model `re` by parsing the generated pattern string into a small AST
(literals, `.`, character classes with optional `+`/`*`, and named groups
whose bodies are built from those atoms) and giving it Python's
leftmost-greedy backtracking semantics.  Patterns outside this fragment
parse to `none` and their matcher rejects everything. -/

/-- A character class `[...]` / `[^...]`: ranges cover single characters as
degenerate ranges. -/
structure CharCls where
  neg : Bool
  ranges : List (Char × Char)
  deriving DecidableEq, Repr

/-- Simple regex atoms (no groups). -/
inductive SAtom where
  | lit (c : Char)
  | dot
  | cls (cc : CharCls)
  | clsPlus (cc : CharCls)
  | clsStar (cc : CharCls)
  deriving DecidableEq, Repr

/-- Regex atoms: simple atoms or a named group over simple atoms. -/
inductive RAtom where
  | simple (a : SAtom)
  | group (name : String) (body : List SAtom)
  deriving DecidableEq, Repr

/-- Characters that are metacharacters of Python `re` outside a class. -/
def specialChar (c : Char) : Bool :=
  c == '.' || c == '^' || c == '$' || c == '*' || c == '+' || c == '?' ||
  c == '\x7b' || c == '\x7d' || c == '[' || c == ']' || c == '\\' ||
  c == '|' || c == '(' || c == ')'

/-- True when the next pattern character is a quantifier we would have to
attach to the previous atom (`+`, `*`, `?`). -/
def postfixHead (rest : List Char) : Bool :=
  match rest.head? with
  | some c => c == '+' || c == '*' || c == '?'
  | none => false

/-- Parse the items of a character class up to the closing `]`. -/
def parseClsItems : List Char → Option (List (Char × Char) × List Char)
  | [] => none
  | ']' :: rest => some ([], rest)
  | '\\' :: _ => none
  | c :: '-' :: d :: rest2 =>
    if d = ']' then some ([(c, c), ('-', '-')], rest2)
    else (parseClsItems rest2).map fun pr => ((c, d) :: pr.1, pr.2)
  | c :: rest => (parseClsItems rest).map fun pr => ((c, c) :: pr.1, pr.2)

/-- Parse a class that started with `[` (the `[` is already consumed),
including an optional postfix quantifier. -/
def parseClass (rest : List Char) : Option (SAtom × List Char) :=
  let neg := rest.head? = some '^'
  let r1 := if rest.head? = some '^' then rest.tail else rest
  match parseClsItems r1 with
  | none => none
  | some (items, rest2) =>
    match rest2 with
    | '+' :: r => some (.clsPlus ⟨neg, items⟩, r)
    | '*' :: r => some (.clsStar ⟨neg, items⟩, r)
    | '?' :: _ => none
    | _ => some (.cls ⟨neg, items⟩, rest2)

/-- Parse one simple atom (with a possible quantifier on a class; a
quantifier on a literal or `.` is outside the supported fragment). -/
def parseSAtom (s : List Char) : Option (SAtom × List Char) :=
  match s with
  | [] => none
  | c :: rest =>
    if c = '[' then parseClass rest
    else if c = '.' then
      if postfixHead rest then none else some (.dot, rest)
    else if specialChar c then none
    else if postfixHead rest then none
    else some (.lit c, rest)

/-- Recognize the opening of a named group `(?P<`. -/
def groupOpen (s : List Char) : Option (List Char) :=
  if s.take 4 = ['(', '?', 'P', '<'] then some (s.drop 4) else none

/-- Split a character list at the first occurrence of `sep`. -/
def splitOnce (sep : Char) : List Char → List Char × Option (List Char)
  | [] => ([], none)
  | c :: rest =>
    if c = sep then ([], some rest)
    else
      let pr := splitOnce sep rest
      (c :: pr.1, pr.2)

/-- Read a group name up to the closing `>`. -/
def takeGroupName (s : List Char) : Option (String × List Char) :=
  match splitOnce '>' s with
  | (name, some rest) => if name.isEmpty then none else some (String.mk name, rest)
  | (_, none) => none

/-- Parse the body of a named group up to the closing `)`. -/
def parseGroupBody : Nat → List Char → Option (List SAtom × List Char)
  | _, ')' :: rest => some ([], rest)
  | 0, _ => none
  | fuel + 1, s =>
    match parseSAtom s with
    | none => none
    | some (a, rest) =>
      match parseGroupBody fuel rest with
      | none => none
      | some (as, r) => some (a :: as, r)

/-- Parse a sequence of regex atoms (fuel bounds the number of atoms). -/
def parseRAtoms : Nat → List Char → Option (List RAtom)
  | _, [] => some []
  | 0, _ :: _ => none
  | fuel + 1, s =>
    match groupOpen s with
    | some rest =>
      match takeGroupName rest with
      | none => none
      | some (name, rest1) =>
        match parseGroupBody rest1.length rest1 with
        | none => none
        | some (body, rest2) =>
          match parseRAtoms fuel rest2 with
          | none => none
          | some as => some (RAtom.group name body :: as)
    | none =>
      match parseSAtom s with
      | none => none
      | some (a, rest) =>
        match parseRAtoms fuel rest with
        | none => none
        | some as => some (RAtom.simple a :: as)

/-- Model of `re.compile` on the generated pattern strings: the pattern must
start with the `^` anchor `regexp` always emits, followed by supported atoms. -/
def parsePattern (p : List Char) : Option (List RAtom) :=
  match p with
  | '^' :: rest => parseRAtoms (rest.length + 1) rest
  | _ => none

/-- Character-class membership (a negated class excludes only its ranges). -/
def inCls (cc : CharCls) (c : Char) : Bool :=
  let mem := cc.ranges.any fun r => decide (r.1 ≤ c) && decide (c ≤ r.2)
  if cc.neg then !mem else mem

/-- Remainders `s.drop k, …, s.drop 1` (longest consumption first): the
greedy priority order for a class quantifier that consumed up to `k`
characters. -/
def suffixesDesc (s : List Char) : Nat → List (List Char)
  | 0 => []
  | k + 1 => s.drop (k + 1) :: suffixesDesc s k

/-- All ways one simple atom can consume a prefix of `s`, as the list of
possible remainders in Python's greedy backtracking priority order. -/
def matchesS : SAtom → List Char → List (List Char)
  | .lit _, [] => []
  | .lit c, d :: rest => if d = c then [rest] else []
  | .dot, [] => []
  | .dot, d :: rest => if d = '\n' then [] else [rest]
  | .cls _, [] => []
  | .cls cc, d :: rest => if inCls cc d then [rest] else []
  | .clsPlus cc, s => suffixesDesc s ((s.takeWhile (inCls cc)).length)
  | .clsStar cc, s => suffixesDesc s ((s.takeWhile (inCls cc)).length) ++ [s]

/-- All remainders after a sequence of simple atoms, in priority order. -/
def matchSAtoms : List SAtom → List Char → List (List Char)
  | [], s => [s]
  | a :: as, s => (matchesS a s).flatMap fun r => matchSAtoms as r

/-- All (captures, remainder) outcomes of a sequence of atoms, in priority
order; a group records the substring its body consumed under its name. -/
def matchRAtoms : List RAtom → List Char → List (List (String × String) × List Char)
  | [], s => [([], s)]
  | RAtom.simple a :: as, s =>
    (matchesS a s).flatMap fun r => matchRAtoms as r
  | RAtom.group n body :: as, s =>
    (matchSAtoms body s).flatMap fun r =>
      (matchRAtoms as r).map fun pr =>
        ((n, String.mk (s.take (s.length - r.length))) :: pr.1, pr.2)

/-- Python `compiled.match(path)` (anchored at position 0 by `re.match` and
by the leading `^`): the first outcome in priority order, if any, giving the
named captures of the match. -/
def reMatch (atoms : List RAtom) (s : List Char) : Option (List (String × String)) :=
  (matchRAtoms atoms s).head?.map Prod.fst

/-- Python `compiled.findall(path)` for a `^`-anchored pattern: at most one
match, at position 0; each match contributes its ordered group captures.
(For patterns with fewer than two groups Python returns strings rather than
tuples; we uniformly return the capture list, which is what the claims use.) -/
def reFindall (atoms : List RAtom) (s : List Char) : List (List String) :=
  match reMatch atoms s with
  | some caps => [caps.map Prod.snd]
  | none => []

/-! ## Responses (response.py is not part of the sources)

Modelled from the spec: `forest/response.py` (imported by routers.py and
protocol.py for `text`) is not under the provided sources; per the response
collaborator contract, a response value exposes `output(version, keepAlive,
timeout) -> bytes`, and `text(s)` builds a plain-text response carrying `s`. -/

structure HResponse where
  body : String
  status : Nat
  deriving DecidableEq, Repr

/-- Modelled from the spec: the `text` helper of the missing
`forest/response.py` — a plain-text response with status 200. -/
def text (s : String) : HResponse :=
  { body := s, status := 200 }

/-! ## RouteRegexp and the `regexp` compiler (routers.py) -/

/-- The compiled route matcher built by `regexp`: the template, the regex
pattern source string it assembled, the result of compiling that pattern
(`re.compile`, modelled by `parsePattern`), the reverse format string, and
the ordered capture-group names. -/
structure RouteRegexp where
  template : String
  pattern : List Char
  compiled : Option (List RAtom)
  reverse : List Char
  names : List String
  strictSlash : Bool
  deriving DecidableEq, Repr

/-- `RouteRegexp.match(request, match)` of routers.py: anchored regex match
of the compiled pattern against `request.path`, used as a boolean. -/
def RouteRegexp.matches (rr : RouteRegexp) (path : String) : Bool :=
  match rr.compiled with
  | some atoms => (reMatch atoms path.data).isSome
  | none => false

/-- `regexp.findall(request.path)` as used by `Route.match` for captures. -/
def RouteRegexp.findall (rr : RouteRegexp) (path : String) : List (List String) :=
  match rr.compiled with
  | some atoms => reFindall atoms path.data
  | none => []

/-- The loop of `regexp` over the brace spans: accumulates the pattern, the
(last-segment-only, as in the source) reverse string and the names.  Errors
mirror the `ValueError` for a segment with an empty name. -/
def regexpLoop (tpl : List Char) (defaultPattern : List Char) :
    List (Nat × Nat) → Nat → List Char → List Char → List String →
    Except String (List Char × List Char × List String)
  | [], e, pattern, reverse, names =>
    .ok (pattern ++ quote (tpl.drop e), reverse, names)
  | (left, right) :: rest, e, pattern, _, names =>
    let raw := (tpl.drop e).take (left - e)
    let inner := (tpl.drop (left + 1)).take (right - 1 - (left + 1))
    let pr := splitOnce ':' inner
    let name := pr.1
    let patt := match pr.2 with
      | some p => if p.isEmpty then defaultPattern else p
      | none => defaultPattern
    if name.isEmpty || patt.isEmpty then
      .error ("missing name or pattern in " ++
        String.mk ((tpl.drop left).take (right - left)))
    else
      regexpLoop tpl defaultPattern rest right
        (pattern ++ quote raw ++ ('(' :: '?' :: 'P' :: '<' :: name) ++ ('>' :: patt) ++ [')'])
        (raw ++ ['%', 's'])
        (names ++ [String.mk name])

/-- `regexp(tpl, matchHost, matchPrefix, matchQuery, strictSlash,
useEncodedPath)` of routers.py: scans the brace spans, chooses the default
pattern, assembles the regex source (anchored at the start with `^` only —
nothing anchors the end), and compiles it. -/
def regexp (tpl : String) (matchHost matchPrefix matchQuery strictSlash
    _useEncodedPath : Bool) : Except String RouteRegexp :=
  match braceIndices tpl.data with
  | .error e => .error e
  | .ok idxs =>
    let defaultPattern :=
      if matchQuery then "[^?&]*".data
      else if matchHost then "[^.]+".data
      else "[^/]+".data
    let matchPrefix1 := if matchHost then false else matchPrefix
    let strictSlash1 :=
      if matchPrefix1 || matchHost || matchQuery then false else strictSlash
    match regexpLoop tpl.data defaultPattern idxs 0 ['^'] [] [] with
    | .error e => .error e
    | .ok (pattern, reverse, names) =>
      .ok { template := tpl, pattern := pattern,
            compiled := parsePattern pattern, reverse := reverse,
            names := names, strictSlash := strictSlash1 }

/-! ## Router, Route, RouteMatch (routers.py)

The Python `Router` class stores `routes = []` as a CLASS attribute: every
instance's `self.routes.append(...)` mutates the single shared list, while
`__init__` gives each instance only `namedRoutes` and `not_found`.  The
embedding therefore threads the shared class-level route list separately
from the per-instance state `RouterInst`, and `Router.register` /
`Router.matchReq` take both: registration appends to the shared list no
matter which instance performed it, and matching reads the shared list.

Handlers are asynchronous callables `(request, *vars) -> response`; we model
them as total functions returning either a response or a raised exception. -/

/-- The part of a request that routing reads (`request.path`); `Router`'s
dispatch hands the whole request to the handler. -/
structure RRequest where
  path : String
  deriving DecidableEq, Repr

/-- Outcome of awaiting a handler: a response, or a raised exception. -/
inductive HResult where
  | ok (r : HResponse)
  | err (e : String)
  deriving DecidableEq, Repr

/-- A registered handler `(request, *vars) -> response`. -/
def Handler := RRequest → List String → HResult

/-- `RouteMatch`: transient per-dispatch match state. -/
structure RouteMatch where
  route : Option RouteRegexp
  handler : Option Handler
  vars : List String

/-- The empty `RouteMatch()` built at the start of a dispatch. -/
def emptyMatch : RouteMatch :=
  { route := none, handler := none, vars := [] }

/-- A registered `Route`.  The source also gives each route a
`RouteRegexpGroup` inherited from its parent router, but with no router
nesting that group is always the empty one whose `setMatch` is a no-op, so
it carries no information; the route's parent pointer is likewise
unobservable through matching and is omitted. -/
structure Route where
  template : String
  rr : RouteRegexp
  handler : Handler

/-- Per-instance `Router` state from `__init__` (`not_found` defaults to the
module-level `not_found` handler but is typed as optional because `match`
tests its truthiness). -/
structure RouterInst where
  notFound : Option Handler

/-- `Route.match(request, match)`: every matcher must accept the path (each
route has exactly one matcher, appended by `addRegexpMatcher`); on success
the unset fields of the match state are populated, and captures are pulled
from `findall` on the same compiled regex. -/
def Route.matchReq (r : Route) (req : RRequest) (m : RouteMatch) : Bool × RouteMatch :=
  if r.rr.matches req.path = false then (false, m)
  else
    let m1 := if m.route.isNone then { m with route := some r.rr } else m
    let m2 := if m1.handler.isNone then { m1 with handler := some r.handler } else m1
    let m3 :=
      if m2.vars.isEmpty then
        match r.rr.findall req.path with
        | vs :: _ => { m2 with vars := vs }
        | [] => m2
      else m2
    (true, m3)

/-- The loop of `Router.match` over the (shared) route list: the first route
whose matcher accepts wins; a failed `Route.match` leaves the match state
untouched. -/
def routerMatchGo : List Route → RRequest → RouteMatch → Option RouteMatch
  | [], _, _ => none
  | r :: rs, req, m =>
    if (Route.matchReq r req m).1 then some (Route.matchReq r req m).2
    else routerMatchGo rs req m

/-- `Router.match(request, match)`: first matching route wins; otherwise a
configured not-found handler is installed and the call still reports
success. -/
def Router.matchReq (shared : List Route) (inst : RouterInst) (req : RRequest)
    (m : RouteMatch) : Bool × RouteMatch :=
  match routerMatchGo shared req m with
  | some m1 => (true, m1)
  | none =>
    match inst.notFound with
    | some nf => (true, { m with handler := some nf })
    | none => (false, m)

/-- `Router.register(path, handler)`: compiles the template via `regexp`
(`Route(self, handler).path(path)`) and appends the route to the single
class-level route list; a template error propagates out of registration.
The result is the updated shared list together with the new route.  The
instance argument is unused by the source method (it touches only the class
attribute), which is exactly the shared-state behaviour under scrutiny. -/
def Router.register (_inst : RouterInst) (shared : List Route) (path : String)
    (handler : Handler) : Except String (List Route × Route) :=
  match regexp path false false false false false with
  | .error e => .error e
  | .ok rr =>
    let route : Route := { template := path, rr := rr, handler := handler }
    .ok (shared ++ [route], route)

/-- Resolution of the handler inside `Router.handler`: `handler =
match.handler`, and `if not handler: handler = self.not_found`. -/
def resolveHandler (inst : RouterInst) (m : RouteMatch) : Option Handler :=
  match m.handler with
  | some h => some h
  | none => inst.notFound

/-- Awaiting the resolved handler with the captured vars; calling a `None`
handler raises `TypeError` (inside the guarded block, hence catchable). -/
def invokeResolved (h? : Option Handler) (req : RRequest) (vars : List String) :
    HResult :=
  match h? with
  | none => .err "TypeError: NoneType object is not callable"
  | some h => h req vars

/-- The outcome of the handler invocation inside `Router.handler`, before
the `except` clause is applied. -/
def dispatchOutcome (shared : List Route) (inst : RouterInst) (req : RRequest) :
    HResult :=
  invokeResolved (resolveHandler inst (Router.matchReq shared inst req emptyMatch).2)
    req (Router.matchReq shared inst req emptyMatch).2.vars

/-- The `except Exception` conversion inside `Router.handler`: a raised
handler exception becomes the generic `text('error')` response. -/
def responseOf : HResult → HResponse
  | .ok r => r
  | .err _ => text "error"

/-- `Router.handler(request, response_writer)` (dispatch): match, resolve
the handler, invoke it inside try/except, and pass the response to the
response writer.  When `match` reports failure the local `handler` variable
was never assigned and the method raises `NameError` outside the guarded
block (this cannot happen while `not_found` is configured). -/
def routerHandler {α : Type} (shared : List Route) (inst : RouterInst)
    (req : RRequest) (writer : HResponse → α) : Except String α :=
  if (Router.matchReq shared inst req emptyMatch).1 then
    Except.ok (writer (responseOf (dispatchOutcome shared inst req)))
  else
    Except.error "UnboundLocalError: local variable handler referenced before assignment"

/-! ## The connection state machine (protocol.py, `HttpProtocolMixin`)

The external tokenizer (`httptools.HttpRequestParser`) is a collaborator:
feeding it bytes triggers the `on_*` callbacks.  The embedding takes the
event sequence a `feed_data` call produces as an input of `data_received`
(the tokenizer oracle), the version/method the tokenizer reports ride on the
headers-complete event, and `should_keep_alive()` is an oracle field of the
tokenizer handle.  Wall-clock reads (`update_time`) are modelled by a `now`
field of the state. -/

/-- The tokenizer handle (`self.parser`): only its `should_keep_alive()`
query is read by the connection machine outside of parse events. -/
structure Tokenizer where
  shouldKeepAlive : Bool
  deriving DecidableEq, Repr

/-- Data written to the transport.  response.py is absent from the sources,
so `output` is kept symbolic: a full response records the arguments
`(version, keep_alive, timeout)` that `response_writer` passes, an error
response records the single version argument `write_error` passes. -/
inductive Wire where
  | response (resp : HResponse) (version : String) (keepAlive : Bool) (timeout : Nat)
  | errorResponse (resp : HResponse) (version : String)
  deriving DecidableEq, Repr

/-- The transport handle: recorded writes, the closed flag, an environment
flag saying whether `transport.write` raises, and the peer name
(`get_extra_info('peername')`), pre-rendered as `host:port`. -/
structure Transport where
  writes : List Wire
  closed : Bool
  writeFails : Bool
  peername : Option String
  deriving DecidableEq, Repr

/-- The `Request` record assembled by the connection (request.py).  The url
is split by `httptools.parse_url`: `path` is the part before `?`; the source
stores the whole parsed-url object in `query_string` when the query is
non-empty, modelled here by the query text itself. -/
structure Req where
  path : String
  queryString : Option String
  headers : List (String × String)
  version : String
  method : String
  body : Option String
  deriving DecidableEq, Repr

/-- A Python instance attribute that `__init__` does not create: it is
`unset` until first assigned (reading it raises `AttributeError`), may hold
`None` (`pynone`), or a value.  `HttpProtocolMixin.__init__` never creates
`self.request` — the attribute is first assigned by `on_headers_complete`,
or set to `None` by `cleanup` — so a fresh connection has it `unset`. -/
inductive PyAttr (α : Type) where
  | unset
  | pynone
  | val (a : α)
  deriving DecidableEq, Repr

/-- The attribute's value as an option (`unset` and `None` give none). -/
def PyAttr.toOption {α : Type} : PyAttr α → Option α
  | .val a => some a
  | _ => none

/-- Python `dict` lookup on an association list whose keys are unique:
first (only) exact-match key wins.  `CIMultiDict` in protocol.py subclasses
`dict` without overriding anything, so this is its lookup. -/
def dictGet (d : List (String × String)) (k : String) : Option String :=
  match d with
  | [] => none
  | kv :: rest => if kv.1 == k then some kv.2 else dictGet rest k

/-- Python `d[k] = v`: replaces the value in place if the key exists,
appends otherwise. -/
def dictSet (d : List (String × String)) (k : String) (v : String) :
    List (String × String) :=
  match d with
  | [] => [(k, v)]
  | kv :: rest => if kv.1 == k then (k, v) :: rest else kv :: dictSet rest k v

/-- Python `dict(pairs)` (what `CIMultiDict(self.headers)` does): inserts
the pairs in order, so a duplicate name keeps its first position but ends up
with its last value. -/
def dictOfPairs (ps : List (String × String)) : List (String × String) :=
  ps.foldl (fun d kv => dictSet d kv.1 kv.2) []

/-- `Request(url_bytes, headers, version, method)` of request.py. -/
def Req.make (urlBytes : String) (headers : List (String × String))
    (version method : String) : Req :=
  { path := String.mk (urlBytes.data.takeWhile (fun c => c ≠ '?')),
    queryString :=
      match urlBytes.data.dropWhile (fun c => c ≠ '?') with
      | _ :: rest => if rest.isEmpty then none else some (String.mk rest)
      | [] => none,
    headers := headers, version := version, method := method, body := none }

/-- The connection state of `HttpProtocolMixin` plus its environment: the
tokenizer handle, the per-message buffers, the transport, the configured
limits, the server-stopping signal, the wall clock (`now`), the scheduled
dispatch log (`create_task(router.handler(request, ...))` appends the
request it captured), a log sink, and a flag marking an unrecoverable
Python-level failure (unbounded recursion / attribute error). -/
structure Conn where
  parser : Option Tokenizer
  url : Option String
  headers : Option (List (String × String))
  request : PyAttr Req
  transport : Transport
  lastRequestTime : Nat
  handlerTask : Option (Option Req)
  scheduled : List (Option Req)
  totalRequestSize : Nat
  requestMaxSize : Nat
  requestTimeout : Nat
  signalStopped : Bool
  now : Nat
  logMessages : List String
  fatal : Bool
  deriving DecidableEq, Repr

/-- `__init__` followed by `connection_made(transport)`: fresh buffers, the
default 65535-byte cap, zero timeout, and the last-activity stamp set to the
current time.  `__init__` does NOT create `self.request`, so the attribute
starts `unset`: reading it raises `AttributeError` until
`on_headers_complete` first assigns it (or `cleanup` sets it to `None`). -/
def Conn.init (p : Tokenizer) (stopped : Bool) (peer : Option String)
    (now : Nat) (writeFails : Bool) : Conn :=
  { parser := some p, url := some "", headers := some [],
    request := PyAttr.unset,
    transport := { writes := [], closed := false, writeFails := writeFails,
                   peername := peer },
    lastRequestTime := now, handlerTask := none, scheduled := [],
    totalRequestSize := 0, requestMaxSize := 65535, requestTimeout := 0,
    signalStopped := stopped, now := now, logMessages := [], fatal := false }

/-- The version `write_error` serializes with on its success path: the
request's version when a request has been assembled, `'1.1'` when the
attribute holds `None` (a truthiness test; the `unset` case never reaches
this point — it raises first). -/
def versionOf (c : Conn) : String :=
  match c.request with
  | .val r => r.version
  | _ => "1.1"

/-- `write_error(exception)` with `bail_out` inlined (protocol.py).  The
guarded block evaluates `if self.request` — which raises `AttributeError`
when the attribute was never assigned (fresh connection) — and then
`transport.write`, which may itself raise.  Either exception lands in the
`except` clause, whose `bail_out` immediately re-enters
`write_error(ServerError(msg))`: unbounded mutual recursion, since the
failing condition persists — so the transport is never touched (in
particular never closed), `bail_out`'s `log.error` line is never reached,
and the interpreter eventually aborts the recursion (`fuel` bounds it;
exhaustion sets `fatal`).  When nothing raises, the error response is
written with the last known version and the transport is closed. -/
def write_error : Nat → Conn → String → Conn
  | fuel, c, excMsg =>
    if c.request = PyAttr.unset ∨ c.transport.writeFails = true then
      match fuel with
      | 0 => { c with fatal := true }
      | fuel + 1 =>
        let msg := "Writing error failed, connection closed " ++ excMsg
        let c1 := write_error fuel c msg
        if c1.fatal then c1 else { c1 with logMessages := c1.logMessages ++ [msg] }
    else
      { c with transport :=
          { c.transport with
            writes := c.transport.writes ++ [Wire.errorResponse (text excMsg) (versionOf c)],
            closed := true } }

/-- `bail_out(message)`: `write_error(ServerError(message))` then
`log.error(message)` (the log line runs only if the write-error call
returns). -/
def bail_out (fuel : Nat) (c : Conn) (msg : String) : Conn :=
  let c1 := write_error fuel c msg
  if c1.fatal then c1 else { c1 with logMessages := c1.logMessages ++ [msg] }

/-- `cleanup()`: drops the per-message state (tokenizer handle, request, url
and header buffers, dispatch-task handle, byte counter); in particular it
assigns `self.request = None`, so after the first cleanup the attribute
exists and holds `None`. -/
def cleanup (c : Conn) : Conn :=
  { c with parser := none, request := PyAttr.pynone, url := none,
           headers := none, handlerTask := none, totalRequestSize := 0 }

/-- One tokenizer parse event, as emitted by `feed_data` on the connection
(the tokenizer collaborator reports the http version and method with the
headers-complete event). -/
inductive TokEvent where
  | url (u : String)
  | header (name value : String)
  | headersComplete (version method : String)
  | body (b : String)
  | messageComplete
  deriving DecidableEq, Repr

/-- Decimal reading of a Content-Length value (`int(value)`); the tokenizer
collaborator hands over well-formed numeric length headers, non-numeric text
reads as 0 here. -/
def decNat (s : String) : Nat :=
  if s.data ≠ [] && s.data.all Char.isDigit then
    s.data.foldl (fun a c => a * 10 + (c.toNat - '0'.toNat)) 0
  else 0

/-- The guard of `on_header`: a `Content-Length` header above the cap. -/
def contentLengthExceeds (name value : String) (maxSize : Nat) : Bool :=
  name == "Content-Length" && decide (decNat value > maxSize)

/-- The append performed by `on_header` (`self.headers.append((...))`);
a `None` header buffer would raise `AttributeError`. -/
def appendHeader (c : Conn) (n v : String) : Conn :=
  match c.headers with
  | none => { c with fatal := true }
  | some hs => { c with headers := some (hs ++ [(n, v)]) }

/-- `on_body`'s accumulation: `if self.request.body: ... += body` (an empty
buffer is falsy and gets replaced, which coincides with appending). -/
def appendBody (old : Option String) (b : String) : String :=
  match old with
  | some o => if o = "" then b else o ++ b
  | none => b

/-- Dispatch of one tokenizer callback (`on_url`, `on_header`,
`on_headers_complete`, `on_body`, `on_message_complete`):
* `on_url` ASSIGNS `self.url = url`, replacing any earlier fragment;
* `on_header` first write-errors on an oversized Content-Length (without
  returning) and then appends the pair to the ordered header list;
* `on_headers_complete` injects the `Remote-Addr` pseudo-header and builds
  the `Request` from the url buffer, `CIMultiDict(self.headers)`, and the
  tokenizer-reported version and method;
* `on_body` appends to the request body (first chunk initializes it);
* `on_message_complete` schedules the dispatch task over `self.request` and
  stores its handle.
A callback that raised (the `fatal` marker) aborts the processing of the
remaining events of the chunk — the exception propagates out of
`feed_data`. -/
def processEvent (fuel : Nat) (c : Conn) (ev : TokEvent) : Conn :=
  if c.fatal then c
  else
    match ev with
    | .url u => { c with url := some u }
    | .header n v =>
      let c1 :=
        if contentLengthExceeds n v c.requestMaxSize then
          write_error fuel c "Payload Too Large"
        else c
      if c1.fatal then c1 else appendHeader c1 n v
    | .headersComplete version method =>
      (match c.url, c.headers with
       | some u, some hs =>
         let hs1 := match c.transport.peername with
           | some peer => hs ++ [("Remote-Addr", peer)]
           | none => hs
         { c with headers := some hs1,
                  request := PyAttr.val (Req.make u (dictOfPairs hs1) version method) }
       | _, _ => { c with fatal := true })
    | .body b =>
      (match c.request with
       | .val req =>
         { c with request := PyAttr.val { req with body := some (appendBody req.body b) } }
       | _ => { c with fatal := true })
    | .messageComplete =>
      (match c.request with
       | .unset => { c with fatal := true }
       | .pynone => { c with handlerTask := some none,
                             scheduled := c.scheduled ++ [none] }
       | .val r => { c with handlerTask := some (some r),
                            scheduled := c.scheduled ++ [some r] })

/-- `data_received(data)`: adds the chunk length to the running byte
counter and calls `write_error` with `PayloadTooLarge` when the cap is
exceeded — with no early return, so when that call returns normally the
chunk is still fed to the tokenizer.  When `write_error` blows up instead
(fresh connection: `self.request` unset; or failing transport) the
exception aborts `data_received` before anything else runs.  Otherwise a
tokenizer is recreated if needed (asserting `self.request is None` and
resetting the header buffer) and the chunk's events — the oracle input
`evs` — are processed.  The trailing `except HttpParserError` clause names
the `HttpParserError` class of `forest.exceptions` (star-imported), NOT the
httptools exception the tokenizer actually raises, so a tokenizer-reported
malformation is never caught there: it propagates out of `data_received`
(`fatal`) and no `Bad Request` response is written. -/
def data_received (fuel : Nat) (c : Conn) (fresh : Tokenizer) (len : Nat)
    (evs : List TokEvent) (parseErr : Bool) : Conn :=
  let c1 := { c with totalRequestSize := c.totalRequestSize + len }
  let c2 :=
    if c1.totalRequestSize > c1.requestMaxSize then
      write_error fuel c1 "Payload Too Large"
    else c1
  if c2.fatal then c2
  else
    let c3 :=
      match c2.parser with
      | none =>
        (match c2.request with
         | PyAttr.pynone => { c2 with headers := some [], parser := some fresh }
         | _ => { c2 with fatal := true })
      | some _ => c2
    if c3.fatal then c3
    else
      let c4 := evs.foldl (processEvent fuel) c3
      if parseErr then { c4 with fatal := true } else c4

/-- `response_writer(response)`: computes the keep-alive decision, writes
the serialized response, and either closes the transport (not persistent)
or stamps the activity time and resets the per-message state via `cleanup`
(persistent).  Any exception inside the guarded block — a failing
`transport.write`, or a missing tokenizer/request — lands in `bail_out`. -/
def response_writer (fuel : Nat) (c : Conn) (resp : HResponse) : Conn :=
  match c.parser, c.request with
  | some p, PyAttr.val req =>
    if c.transport.writeFails then
      bail_out fuel c "Writing response failed, connection closed"
    else
      let keepAlive := p.shouldKeepAlive && !c.signalStopped
      let c1 := { c with transport :=
        { c.transport with
          writes := c.transport.writes ++
            [Wire.response resp req.version keepAlive c.requestTimeout] } }
      if keepAlive = false then
        { c1 with transport := { c1.transport with closed := true } }
      else
        cleanup { c1 with lastRequestTime := c1.now }
  | _, _ => bail_out fuel c "Writing response failed, connection closed"

/-! ## Concrete fixtures used by the theorems -/

/-- A tokenizer oracle reporting a persistent connection. -/
def tok0 : Tokenizer := { shouldKeepAlive := true }

/-- A fresh connection on a working transport with no peer name. -/
def conn0 : Conn := Conn.init tok0 false none 0 false

/-- A fresh connection whose transport write raises. -/
def connFail : Conn := Conn.init tok0 false none 0 true

/-- A recycled keep-alive connection: a connection after `cleanup` ran at
the end of a previous message, awaiting the next one (tokenizer handle
dropped, `self.request = None`, buffers cleared). -/
def connKept : Conn := cleanup conn0

/-- A connection that has assembled a request but whose transport write
raises. -/
def connFailReq : Conn :=
  { connFail with request := PyAttr.val (Req.make "/x" [] "1.1" "GET") }

/-- A trivial registered handler. -/
def dummyHandler : Handler := fun _ _ => HResult.ok (text "ok")

/-- A handler that raises on every invocation. -/
def errorHandler : Handler := fun _ _ => HResult.err "boom"

/-- The article template of the specification's routing example. -/
def tpl3 : String := "/articles/\x7bcategory\x7d/\x7bid:[0-9]+\x7d"

/-- Acceptance of a path by the route compiled from a template (with the
flag values `Route.addRegexpMatcher` passes). -/
def templateAccepts (tpl p : String) : Bool :=
  match regexp tpl false false false false false with
  | .ok rr => rr.matches p
  | .error _ => false

/-- A connection that has assembled a request, observed at clock 42. -/
def connReq : Conn :=
  { conn0 with request := PyAttr.val (Req.make "/x" [] "1.1" "GET"), now := 42 }

/-- The concrete compiled matcher for the template `/w`. -/
def rrW : RouteRegexp :=
  { template := "/w", pattern := ['^', '/', 'w'],
    compiled := some [RAtom.simple (SAtom.lit '/'), RAtom.simple (SAtom.lit 'w')],
    reverse := [], names := [], strictSlash := false }

/-- The concrete route registered from `/w`. -/
def routeW : Route :=
  { template := "/w", rr := rrW, handler := dummyHandler }

/-- A template character that survives quoting unchanged AND is not a regex
metacharacter: for these, compiled literal text means literal matching. -/
def plainChar (c : Char) : Bool :=
  quoteSafeChar c && !(c == '.')

/-- The atom list a purely literal pattern parses to. -/
def litAtoms (cs : List Char) : List RAtom :=
  cs.map fun c => RAtom.simple (SAtom.lit c)

end Forest

namespace Forest

/-! ## Claim theorems -/

/-- C1: the size cap is violated in both connection regimes, evaluated on a
single 70000-byte chunk (cap 65535) carrying a complete message.
On a RECYCLED keep-alive connection (where `cleanup` has set
`self.request = None`), `write_error` succeeds — one `PayloadTooLarge`
response, transport closed — but `data_received` has no early return: the
chunk is still fed to the tokenizer and `on_message_complete` schedules the
dispatch task, so the request assembled from the over-cap stream IS
delivered to the handler, contradicting the no-delivery guarantee.
On a FRESH connection, `self.request` was never assigned, so `write_error`
raises `AttributeError` and recurses through `bail_out` until the
interpreter aborts it: NO `PayloadTooLarge` response is written and the
transport is not closed, contradicting the error-response guarantee
(nothing is scheduled only because the exception aborts the call before
`feed_data`). -/
theorem C1_oversized_message_still_dispatched :
    ((data_received 9 connKept tok0 70000
        [TokEvent.url "/x", TokEvent.headersComplete "1.1" "GET",
         TokEvent.messageComplete] false).transport.writes
        = [Wire.errorResponse (text "Payload Too Large") "1.1"]
      ∧ (data_received 9 connKept tok0 70000
          [TokEvent.url "/x", TokEvent.headersComplete "1.1" "GET",
           TokEvent.messageComplete] false).transport.closed = true
      ∧ (data_received 9 connKept tok0 70000
          [TokEvent.url "/x", TokEvent.headersComplete "1.1" "GET",
           TokEvent.messageComplete] false).scheduled
        = [some { path := "/x", queryString := none, headers := [],
                  version := "1.1", method := "GET", body := none }])
    ∧ ((data_received 9 conn0 tok0 70000
          [TokEvent.url "/x", TokEvent.headersComplete "1.1" "GET",
           TokEvent.messageComplete] false).transport.writes = []
      ∧ (data_received 9 conn0 tok0 70000
          [TokEvent.url "/x", TokEvent.headersComplete "1.1" "GET",
           TokEvent.messageComplete] false).transport.closed = false
      ∧ (data_received 9 conn0 tok0 70000
          [TokEvent.url "/x", TokEvent.headersComplete "1.1" "GET",
           TokEvent.messageComplete] false).scheduled = []
      ∧ (data_received 9 conn0 tok0 70000
          [TokEvent.url "/x", TokEvent.headersComplete "1.1" "GET",
           TokEvent.messageComplete] false).fatal = true) := by
  decide

/-- C5: `on_url` assigns `self.url = url` instead of appending: after the
tokenizer emits the fragments `"/ab"` then `"cd"` for one message, the url
buffer holds only the last fragment, not the concatenation `"/abcd"`. -/
theorem C5_on_url_replaces :
    (processEvent 0 (processEvent 0 conn0 (TokEvent.url "/ab"))
        (TokEvent.url "cd")).url = some "cd"
    ∧ (processEvent 0 (processEvent 0 conn0 (TokEvent.url "/ab"))
        (TokEvent.url "cd")).url ≠ some "/abcd" := by
  decide

/-- C3: the route compiled from `/articles/{category}/{id:[0-9]+}` matches
`/articles/tech/42` with ordered captures `("tech", "42")`, does not match
`/articles/tech/abc`, and on the non-matching path `Router.match` falls
through to the configured not-found handler. -/
theorem C3_articles_template : ∀ (hd nfh : Handler),
    (Router.register ⟨some nfh⟩ [] tpl3 hd).map
        (fun pr => (Route.matchReq pr.2 ⟨"/articles/tech/42"⟩ emptyMatch).1)
      = .ok true
    ∧ (Router.register ⟨some nfh⟩ [] tpl3 hd).map
        (fun pr => (Route.matchReq pr.2 ⟨"/articles/tech/42"⟩ emptyMatch).2.vars)
      = .ok ["tech", "42"]
    ∧ (Router.register ⟨some nfh⟩ [] tpl3 hd).map
        (fun pr => (Route.matchReq pr.2 ⟨"/articles/tech/abc"⟩ emptyMatch).1)
      = .ok false
    ∧ (Router.register ⟨some nfh⟩ [] tpl3 hd).map
        (fun pr => (Router.matchReq pr.1 ⟨some nfh⟩ ⟨"/articles/tech/abc"⟩ emptyMatch).1)
      = .ok true
    ∧ (Router.register ⟨some nfh⟩ [] tpl3 hd).map
        (fun pr => (Router.matchReq pr.1 ⟨some nfh⟩ ⟨"/articles/tech/abc"⟩ emptyMatch).2.handler)
      = .ok (some nfh) := by
  intro hd nfh
  exact ⟨rfl, rfl, rfl, rfl, rfl⟩

/-- C2 counterexample: the matcher compiled from the brace-free template
`/abc` also accepts the strictly longer path `/abcd` (the generated pattern
is anchored only at the start), so acceptance is not equivalent to
character-for-character identity. -/
theorem C2_counterexample :
    templateAccepts "/abc" "/abcd" = true ∧ "/abcd" ≠ "/abc" := by
  decide

/-- C4 counterexample: the template `/a{b` has an opening brace with no
matching closing brace, yet registration succeeds — `braceIndices` only
raises when the nesting level goes negative and never checks for an
unconsumed opening brace, so this unbalanced template is silently compiled
(to the pattern `^/a%7Bb`) instead of failing with a registration error. -/
theorem C4_counterexample :
    (Router.register ⟨some dummyHandler⟩ [] "/a\x7bb" dummyHandler).isOk = true := by
  rfl

/-- C6 counterexample: `CIMultiDict` subclasses `dict` without overriding
lookup, so the header mapping of a completed request is case-SENSITIVE:
after `on_header("Host", "example")`, looking up `"host"` yields nothing
while `"Host"` yields the value. -/
theorem C6_counterexample :
    ((processEvent 0 (processEvent 0 conn0 (TokEvent.header "Host" "example"))
        (TokEvent.headersComplete "1.1" "GET")).request.toOption.map
      fun r => (dictGet r.headers "host", dictGet r.headers "Host"))
    = some (none, some "example") := by
  decide

/-- C8 counterexample: on a fresh connection with a failing transport,
`write_error` does NOT close the transport — `transport.close()` sits after
the `if self.request` test (which raises `AttributeError` on a fresh
connection) and after `transport.write` inside the `try`, and the `except`
clause re-enters `write_error` through `bail_out` (whose log line is never
reached) until the recursion aborts. -/
theorem C8_counterexample :
    (write_error 5 connFail "Payload Too Large").transport.closed = false
    ∧ (write_error 5 connFail "Payload Too Large").logMessages = [] := by
  decide

/-- C8 amended: when nothing inside the guarded block raises — the
`request` attribute has been assigned at least once (so `if self.request`
does not raise) and the transport write succeeds — `write_error` writes
exactly one plain-text error response (with the last known version) and
closes the transport.  When the guarded block raises — the attribute is
still unset (fresh connection) or the write fails — the transport is left
completely untouched (in particular never closed), nothing is logged, and
the recursive `bail_out`/`write_error` retry loop runs until the
interpreter aborts it. -/
theorem C8_amended (fuel : Nat) (c : Conn) (msg : String) :
    (c.request ≠ PyAttr.unset → c.transport.writeFails = false →
      (write_error fuel c msg).transport.closed = true
      ∧ (write_error fuel c msg).transport.writes
          = c.transport.writes ++ [Wire.errorResponse (text msg) (versionOf c)])
    ∧ (c.request = PyAttr.unset ∨ c.transport.writeFails = true →
      (write_error fuel c msg).transport = c.transport
      ∧ (write_error fuel c msg).logMessages = c.logMessages
      ∧ (write_error fuel c msg).fatal = true) := by
  induction fuel generalizing msg with
  | zero =>
    constructor
    · intro h1 h2
      have hcond : ¬ (c.request = PyAttr.unset ∨ c.transport.writeFails = true) := by
        simp [h1, h2]
      simp [write_error, hcond]
    · intro h; simp [write_error, h]
  | succ n ih =>
    constructor
    · intro h1 h2
      have hcond : ¬ (c.request = PyAttr.unset ∨ c.transport.writeFails = true) := by
        simp [h1, h2]
      simp [write_error, hcond]
    · intro h
      simp only [write_error, h, if_true]
      have hih := ih ("Writing error failed, connection closed " ++ msg)
      rw [(hih.2 h).2.2, if_pos rfl]
      exact ⟨(hih.2 h).1, (hih.2 h).2.1, (hih.2 h).2.2⟩

/-- C8 amended, witness: on a recycled connection (request attribute set to
`None` by `cleanup`) with a working transport, `write_error` closes the
connection; on a fresh connection it leaves the transport untouched. -/
theorem C8_amended_witness :
    (write_error 3 connKept "E").transport.closed = true
    ∧ (write_error 3 conn0 "E").transport = conn0.transport :=
  ⟨((C8_amended 3 connKept "E").1 (by decide) rfl).1,
   ((C8_amended 3 conn0 "E").2 (Or.inl rfl)).1⟩

/-- C9 counterexample: an invocation of `response_writer` in which the
transport write raises.  The keep-alive decision computes to true, so the
claim requires the last-activity stamp and a per-message reset — but the
source never reaches them: the exception lands in `bail_out`, whose
`write_error` re-raises on the same failing transport and recurses, so
nothing is written, nothing is reset (the tokenizer handle survives), and
the transport is not closed. -/
theorem C9_counterexample :
    (response_writer 3 connFailReq (text "hi")).parser = some tok0
    ∧ (response_writer 3 connFailReq (text "hi")).transport.writes = []
    ∧ (response_writer 3 connFailReq (text "hi")).transport.closed = false
    ∧ (response_writer 3 connFailReq (text "hi")).totalRequestSize
        = connFailReq.totalRequestSize
    ∧ (response_writer 3 connFailReq (text "hi")).fatal = true := by
  decide

/-- C9 amended: for every invocation in which the guarded block does not
raise — the tokenizer handle is present, a request has been assembled, and
the transport write succeeds — `response_writer` writes the response
serialized with the request's version, the keep-alive decision
`should_keep_alive() AND NOT stopped`, and the configured timeout; a
non-persistent decision closes the transport, while a persistent one stamps
the last-activity time with the current clock and resets the per-message
state (tokenizer handle, request, url buffer, header list, dispatch-task
handle, byte counter) exactly once, leaving the transport open.  In an
invocation whose write raises, none of this happens (see the
counterexample): the call disappears into the `bail_out` recovery path. -/
theorem C9_response_writer_keepalive (fuel : Nat) (c : Conn) (resp : HResponse)
    (p : Tokenizer) (req : Req)
    (h1 : c.parser = some p) (h2 : c.request = PyAttr.val req)
    (h3 : c.transport.writeFails = false) :
    (response_writer fuel c resp).transport.writes
      = c.transport.writes ++
        [Wire.response resp req.version (p.shouldKeepAlive && !c.signalStopped)
          c.requestTimeout]
    ∧ ((p.shouldKeepAlive && !c.signalStopped) = false →
        (response_writer fuel c resp).transport.closed = true)
    ∧ ((p.shouldKeepAlive && !c.signalStopped) = true →
        (response_writer fuel c resp).parser = none
        ∧ (response_writer fuel c resp).request = PyAttr.pynone
        ∧ (response_writer fuel c resp).url = none
        ∧ (response_writer fuel c resp).headers = none
        ∧ (response_writer fuel c resp).handlerTask = none
        ∧ (response_writer fuel c resp).totalRequestSize = 0
        ∧ (response_writer fuel c resp).lastRequestTime = c.now
        ∧ (response_writer fuel c resp).transport.closed = c.transport.closed) := by
  cases hka : (p.shouldKeepAlive && !c.signalStopped) <;>
    simp [response_writer, h1, h2, h3, hka, cleanup]

/-- C9 witness: a persistent response on a fresh connection resets the
tokenizer handle and stamps the clock. -/
theorem C9_response_writer_keepalive_witness :
    (response_writer 0 connReq (text "hi")).parser = none
    ∧ (response_writer 0 connReq (text "hi")).lastRequestTime = 42 :=
  have h := C9_response_writer_keepalive 0 connReq (text "hi") tok0
    (Req.make "/x" [] "1.1" "GET") rfl rfl rfl
  ⟨(h.2.2 rfl).1, (h.2.2 rfl).2.2.2.2.2.2.1⟩

/-- With a configured not-found handler, `Router.match` always reports
success (first matching route, or the fallback). -/
theorem routerMatch_true_of_notFound (shared : List Route) (nf : Handler)
    (req : RRequest) (m : RouteMatch) :
    (Router.matchReq shared ⟨some nf⟩ req m).1 = true := by
  unfold Router.matchReq
  cases h : routerMatchGo shared req m <;> simp [h]

/-- C7: a handler exception raised during dispatch is caught at the
`Router.handler` boundary and converted into the generic `text('error')`
response handed to the response writer; dispatch returns normally (the
exception does not propagate), and the connection is touched only through
the writer. -/
theorem C7_handler_exception_caught {α : Type} (shared : List Route)
    (nf : Handler) (req : RRequest) (writer : HResponse → α) (e : String)
    (h : dispatchOutcome shared ⟨some nf⟩ req = HResult.err e) :
    routerHandler shared ⟨some nf⟩ req writer = Except.ok (writer (text "error")) := by
  unfold routerHandler
  rw [routerMatch_true_of_notFound]
  simp [h, responseOf]

/-- C7 witness: a raising handler resolved on an empty route table yields
the generic error response through the writer. -/
theorem C7_handler_exception_caught_witness :
    routerHandler [] ⟨some errorHandler⟩ ⟨"/x"⟩ (fun r => r)
      = Except.ok (text "error") :=
  C7_handler_exception_caught [] errorHandler ⟨"/x"⟩ (fun r => r) "boom" rfl

/-- `write_error` never touches the header buffer (it only writes to the
transport, the log, or the fatal flag). -/
theorem write_error_headers (fuel : Nat) (c : Conn) (msg : String) :
    (write_error fuel c msg).headers = c.headers := by
  induction fuel generalizing msg with
  | zero =>
    by_cases h : (c.request = PyAttr.unset ∨ c.transport.writeFails = true) <;>
      simp [write_error, h]
  | succ n ih =>
    by_cases h : (c.request = PyAttr.unset ∨ c.transport.writeFails = true)
    · simp only [write_error, if_pos h]
      split <;> simp [ih]
    · simp [write_error, h]

/-- When the guarded block of `write_error` raises (request attribute unset
or failing write), the recursion ends in the fatal marker. -/
theorem write_error_raise_fatal (fuel : Nat) (c : Conn) (msg : String)
    (h : c.request = PyAttr.unset ∨ c.transport.writeFails = true) :
    (write_error fuel c msg).fatal = true := by
  induction fuel generalizing msg with
  | zero => simp [write_error, h]
  | succ n ih =>
    simp only [write_error, if_pos h]
    rw [ih, if_pos rfl]
    exact ih _

/-- When nothing in `write_error`'s guarded block raises, the fatal marker
is untouched. -/
theorem write_error_ok_fatal (fuel : Nat) (c : Conn) (msg : String)
    (h : ¬ (c.request = PyAttr.unset ∨ c.transport.writeFails = true)) :
    (write_error fuel c msg).fatal = c.fatal := by
  cases fuel <;> simp [write_error, h]

/-- Looking up the key just set yields the value just set. -/
theorem dictGet_dictSet_self (d : List (String × String)) (k v : String) :
    dictGet (dictSet d k v) k = some v := by
  induction d with
  | nil => simp [dictSet, dictGet]
  | cons kv rest ih =>
    by_cases h : kv.1 == k
    · simp [dictSet, dictGet, h]
    · simp only [dictSet, dictGet, h, if_neg]
      simpa using ih

/-- Setting one key leaves lookups of other keys unchanged. -/
theorem dictGet_dictSet_ne (d : List (String × String)) (k v k' : String)
    (h : (k == k') = false) :
    dictGet (dictSet d k v) k' = dictGet d k' := by
  induction d with
  | nil => simp [dictSet, dictGet, h]
  | cons kv rest ih =>
    by_cases hk : kv.1 == k
    · have : kv.1 = k := by simpa using hk
      simp [dictSet, dictGet, hk, h, this]
    · simp [dictSet, dictGet, hk, ih]

/-- Lookup success through `dict(pairs)` insertion: a key is found exactly
when some pair recorded it (case-sensitively). -/
theorem dictGet_foldl_isSome (ps : List (String × String))
    (d : List (String × String)) (k : String) :
    (dictGet (ps.foldl (fun d kv => dictSet d kv.1 kv.2) d) k).isSome
      = ((dictGet d k).isSome || ps.any fun kv => kv.1 == k) := by
  induction ps generalizing d with
  | nil => simp
  | cons kv ps ih =>
    have hstep : (dictGet (dictSet d kv.1 kv.2) k).isSome
        = ((dictGet d k).isSome || (kv.1 == k)) := by
      by_cases hq : kv.1 == k
      · have : kv.1 = k := by simpa using hq
        subst this
        simp [dictGet_dictSet_self, hq]
      · simp [dictGet_dictSet_ne d kv.1 kv.2 k (by simpa using hq),
              hq]
    simp [List.foldl_cons, ih, hstep, Bool.or_assoc]

/-- C6 amended: `on_header` appends the `(name, value)` pair to the ordered
header list, preserving duplicates and insertion order, in every call that
runs to completion: always when the oversized-length check does not fire,
and — because that check does not return — even when it fires, provided
`write_error` returns normally (request attribute assigned, working
transport).  But when the check fires on a FRESH connection, `write_error`
raises (`self.request` was never assigned) and aborts `on_header` before
the append, so that pair is lost.  And the header mapping built by
`on_headers_complete` is a plain `dict` (`CIMultiDict` overrides nothing),
so lookup is case-SENSITIVE — a name is found exactly when recorded in that
exact spelling — and duplicate names collapse to the last recorded value
rather than being preserved. -/
theorem C6_amended :
    (∀ (c : Conn) (hs : List (String × String)) (n v : String) (fuel : Nat),
      c.fatal = false → c.headers = some hs →
      contentLengthExceeds n v c.requestMaxSize = false →
      (processEvent fuel c (TokEvent.header n v)).headers = some (hs ++ [(n, v)]))
    ∧ (∀ (c : Conn) (hs : List (String × String)) (n v : String) (fuel : Nat),
      c.fatal = false → c.headers = some hs →
      c.request ≠ PyAttr.unset → c.transport.writeFails = false →
      (processEvent fuel c (TokEvent.header n v)).headers = some (hs ++ [(n, v)]))
    ∧ (∀ (c : Conn) (hs : List (String × String)) (n v : String) (fuel : Nat),
      c.fatal = false → c.headers = some hs →
      contentLengthExceeds n v c.requestMaxSize = true →
      c.request = PyAttr.unset →
      (processEvent fuel c (TokEvent.header n v)).headers = some hs
      ∧ (processEvent fuel c (TokEvent.header n v)).fatal = true)
    ∧ (∀ (ps : List (String × String)) (k : String),
      (dictGet (dictOfPairs ps) k).isSome = ps.any fun kv => kv.1 == k)
    ∧ (∀ (ps : List (String × String)) (k v : String),
      dictGet (dictOfPairs (ps ++ [(k, v)])) k = some v) := by
  refine ⟨?_, ?_, ?_, ?_, ?_⟩
  · intro c hs n v fuel h0 h hcl
    simp [processEvent, h0, hcl, appendHeader, h]
  · intro c hs n v fuel h0 h hreq hwf
    by_cases hcl : contentLengthExceeds n v c.requestMaxSize
    · have hcond : ¬ (c.request = PyAttr.unset ∨ c.transport.writeFails = true) := by
        simp [hreq, hwf]
      have hh : (write_error fuel c "Payload Too Large").headers = some hs := by
        rw [write_error_headers, h]
      have hf : (write_error fuel c "Payload Too Large").fatal = false := by
        rw [write_error_ok_fatal fuel c "Payload Too Large" hcond, h0]
      simp [processEvent, h0, hcl, hf, appendHeader, hh]
    · simp [processEvent, h0, hcl, appendHeader, h]
  · intro c hs n v fuel h0 h hcl hreq
    have hf := write_error_raise_fatal fuel c "Payload Too Large" (Or.inl hreq)
    have hh := write_error_headers fuel c "Payload Too Large"
    constructor
    · simp [processEvent, h0, hcl, hf, hh, h]
    · simp [processEvent, h0, hcl, hf]
  · intro ps k
    simpa [dictOfPairs, dictGet] using dictGet_foldl_isSome ps [] k
  · intro ps k v
    simp [dictOfPairs, List.foldl_append, dictGet_dictSet_self]

/-- C6 amended witness: appending the first header pair to a fresh
connection's empty header list (no oversized length header involved). -/
theorem C6_amended_witness :
    (processEvent 0 conn0 (TokEvent.header "Host" "h")).headers
      = some [("Host", "h")] :=
  C6_amended.1 conn0 [] "Host" "h" 0 rfl rfl (by decide)

/-- Appending a route to the shared list: when no earlier route matched,
the match loop over the extended list is decided by the new route. -/
theorem routerMatchGo_append_none (rs : List Route) (r : Route)
    (req : RRequest) (m : RouteMatch)
    (h : routerMatchGo rs req m = none) :
    routerMatchGo (rs ++ [r]) req m
      = (if (Route.matchReq r req m).1 then some (Route.matchReq r req m).2
         else none) := by
  induction rs with
  | nil => simp [routerMatchGo]
  | cons x xs ih =>
    simp only [routerMatchGo] at h
    split at h
    · exact absurd h (by simp)
    · rename_i hx
      simp only [List.cons_append, routerMatchGo, hx, if_false]
      exact ih h

/-- A successful `Route.match` starting from the empty match state installs
the route's own handler. -/
theorem Route.matchReq_handler_emptyMatch (r : Route) (req : RRequest)
    (h : (Route.matchReq r req emptyMatch).1 = true) :
    (Route.matchReq r req emptyMatch).2.handler = some r.handler := by
  unfold Route.matchReq at *
  by_cases hm : r.rr.matches req.path = false
  · rw [if_pos hm] at h
    exact absurd h (by simp)
  · rw [if_neg hm]
    cases hf : r.rr.findall req.path <;> simp [emptyMatch, hf]

/-- C10: the route list is a single class-level table shared by all Router
instances.  Registration is independent of the instance it went through
(`Router.register` ignores the instance and appends to the shared list),
and a subsequent `Router.match` performed through ANY other instance
considers the newly registered route: if no earlier route matches the path
but the new route does, matching through the other instance succeeds and
resolves the handler registered through the first instance. -/
theorem C10_shared_route_table (inst1 inst2 : RouterInst) (shared : List Route)
    (tpl : String) (hd : Handler) (p : String) (sh' : List Route) (r : Route)
    (h1 : Router.register inst1 shared tpl hd = .ok (sh', r))
    (h2 : routerMatchGo shared ⟨p⟩ emptyMatch = none)
    (h3 : (Route.matchReq r ⟨p⟩ emptyMatch).1 = true) :
    sh' = shared ++ [r]
    ∧ Router.register inst2 shared tpl hd = .ok (sh', r)
    ∧ (Router.matchReq sh' inst2 ⟨p⟩ emptyMatch).1 = true
    ∧ (Router.matchReq sh' inst2 ⟨p⟩ emptyMatch).2.handler = some hd := by
  unfold Router.register at h1
  cases hreg : regexp tpl false false false false false with
  | error e => rw [hreg] at h1; cases h1
  | ok rr =>
    rw [hreg] at h1
    injection h1 with h1
    injection h1 with hsh hr
    subst hsh
    subst hr
    refine ⟨rfl, by unfold Router.register; rw [hreg], ?_, ?_⟩
    · unfold Router.matchReq
      rw [routerMatchGo_append_none shared _ _ _ h2, if_pos h3]
    · unfold Router.matchReq
      rw [routerMatchGo_append_none shared _ _ _ h2, if_pos h3]
      exact Route.matchReq_handler_emptyMatch _ _ h3

/-- C10 witness: registering `/w` through one instance and matching `/w`
through a different instance resolves the registered handler. -/
theorem C10_shared_route_table_witness :
    ([routeW] : List Route) = [] ++ [routeW]
    ∧ Router.register ⟨none⟩ [] "/w" dummyHandler = .ok ([routeW], routeW)
    ∧ (Router.matchReq [routeW] ⟨none⟩ ⟨"/w"⟩ emptyMatch).1 = true
    ∧ (Router.matchReq [routeW] ⟨none⟩ ⟨"/w"⟩ emptyMatch).2.handler
        = some dummyHandler :=
  C10_shared_route_table ⟨some dummyHandler⟩ ⟨none⟩ [] "/w" dummyHandler "/w"
    [routeW] routeW rfl rfl rfl

/-- Invariant of the `braceIndices` scan: if the scan succeeds starting
from a non-negative nesting level, then along every prefix of the remaining
input the closing braces never outnumber the opening braces by more than
the starting level. -/
theorem braceIndicesAux_close_bound (s : List Char) :
    ∀ (i : Nat) (level : Int) (idx : Nat) (acc r : List (Nat × Nat)),
    0 ≤ level →
    braceIndicesAux s i level idx acc = .ok r →
    ∀ p : List Char, p.isPrefixOf s = true →
    (p.count '\x7d' : Int) ≤ level + p.count '\x7b' := by
  induction s with
  | nil =>
    intro i level idx acc r hlev _ p hp
    cases p with
    | nil => simpa using hlev
    | cons q p' => simp [List.isPrefixOf] at hp
  | cons c s' ih =>
    intro i level idx acc r hlev hok p hp
    cases p with
    | nil => simpa using hlev
    | cons q p' =>
      have hqp : q = c ∧ p'.isPrefixOf s' = true := by
        simpa only [List.isPrefixOf, Bool.and_eq_true, beq_iff_eq] using hp
      obtain ⟨hq, hp'⟩ := hqp
      rw [hq]
      unfold braceIndicesAux at hok
      by_cases h1 : c = '\x7b'
      · rw [if_pos h1] at hok
        have hb := ih (i + 1) (level + 1) (if level + 1 = 1 then i else idx)
          acc r (by omega) hok p' hp'
        simp [List.count_cons, h1]
        omega
      · rw [if_neg h1] at hok
        by_cases h2 : c = '\x7d'
        · rw [if_pos h2] at hok
          by_cases h3 : level - 1 = 0
          · rw [if_pos h3] at hok
            have hb := ih (i + 1) (level - 1) idx (acc ++ [(idx, i + 1)]) r
              (by omega) hok p' hp'
            simp [List.count_cons, h2]
            omega
          · rw [if_neg h3] at hok
            by_cases h4 : level - 1 < 0
            · rw [if_pos h4] at hok
              cases hok
            · rw [if_neg h4] at hok
              have hb := ih (i + 1) (level - 1) idx acc r (by omega) hok p' hp'
              simp [List.count_cons, h2]
              omega
        · rw [if_neg h2] at hok
          have hb := ih (i + 1) level idx acc r hlev hok p' hp'
          simp [List.count_cons, h1, h2]
          omega

/-- C4 amended: a template containing a closing brace with no matching
opening brace (some prefix holds more `}` than `{`) does fail at
registration time — `braceIndices` raises there and the error propagates
out of `Router.register` before any request is served — but the exception
is a plain `ValueError` (message `unbalanced braces in }`), not a
`RouterError`; and a template whose imbalance is an unmatched OPENING brace
does not fail at all (see the counterexample): the stray brace is treated
as literal text. -/
theorem C4_amended (tpl : String) (inst : RouterInst) (hd : Handler)
    (shared : List Route) (p : List Char)
    (hp : p.isPrefixOf tpl.data = true)
    (hcount : p.count '\x7b' < p.count '\x7d') :
    ∃ msg, Router.register inst shared tpl hd = .error msg := by
  cases hbi : braceIndices tpl.data with
  | ok idxs =>
    exfalso
    have := braceIndicesAux_close_bound tpl.data 0 0 0 [] idxs (by omega) hbi p hp
    omega
  | error e =>
    refine ⟨e, ?_⟩
    unfold Router.register regexp
    rw [hbi]

/-- C4 amended witness: the template `}` (a closing brace with no opening
brace) is rejected at registration time. -/
theorem C4_amended_witness :
    ∃ msg, Router.register ⟨some dummyHandler⟩ [] "\x7d" dummyHandler
      = .error msg :=
  C4_amended "\x7d" ⟨some dummyHandler⟩ dummyHandler [] ['\x7d']
    (by decide) (by decide)

/-- Quoting is the identity on quote-safe text. -/
theorem quote_plain (cs : List Char) (h : ∀ c ∈ cs, quoteSafeChar c = true) :
    quote cs = cs := by
  induction cs with
  | nil => rfl
  | cons c cs ih =>
    have hc := h c (by simp)
    have ih1 := ih fun x hx => h x (List.mem_cons_of_mem _ hx)
    simp [quote, quoteChar, hc]
    simpa [quote] using ih1

/-- On brace-free input the `braceIndices` scan returns its accumulator. -/
theorem braceIndicesAux_nobrace (cs : List Char)
    (h : ∀ c ∈ cs, c ≠ '\x7b' ∧ c ≠ '\x7d') :
    ∀ (i : Nat) (level : Int) (idx : Nat) (acc : List (Nat × Nat)),
    braceIndicesAux cs i level idx acc = .ok acc := by
  induction cs with
  | nil => intro i level idx acc; rfl
  | cons c cs ih =>
    intro i level idx acc
    have hc := h c (by simp)
    have ih1 := ih fun x hx => h x (List.mem_cons_of_mem _ hx)
    unfold braceIndicesAux
    rw [if_neg hc.1, if_neg hc.2]
    exact ih1 _ _ _ _

/-- A character other than `(` cannot open a named group. -/
theorem groupOpen_of_ne (c : Char) (r : List Char) (h : ¬ c = '(') :
    groupOpen (c :: r) = none := by
  simp [groupOpen, List.take_succ_cons, h]

/-- Extracting a disequality from non-membership in the metacharacter set. -/
theorem not_special_ne {c : Char} (x : Char) (h : specialChar c = false)
    (hx : specialChar x = true) : ¬ c = x := by
  intro e; subst e; rw [h] at hx; cases hx

/-- Boolean form of `not_special_ne`. -/
theorem not_special_beq {c : Char} (x : Char) (h : specialChar c = false)
    (hx : specialChar x = true) : (c == x) = false := by
  have := not_special_ne x h hx
  simpa using this

/-- A quote-safe character never equals a quote-unsafe one. -/
theorem safe_not_beq (c x : Char) (hq : quoteSafeChar c = true)
    (hx : quoteSafeChar x = false) : (c == x) = false := by
  by_contra hb
  rw [Bool.not_eq_false] at hb
  have he : c = x := by simpa using hb
  subst he
  rw [hx] at hq
  cases hq

/-- A quote-safe non-dot character is not a regex metacharacter. -/
theorem plain_not_special {c : Char} (h : plainChar c = true) :
    specialChar c = false := by
  have hq : quoteSafeChar c = true ∧ (c == '.') = false := by
    simpa [plainChar, Bool.and_eq_true] using h
  simp only [specialChar]
  rw [hq.2, safe_not_beq c '^' hq.1 (by decide), safe_not_beq c '$' hq.1 (by decide),
    safe_not_beq c '*' hq.1 (by decide), safe_not_beq c '+' hq.1 (by decide),
    safe_not_beq c '?' hq.1 (by decide), safe_not_beq c '\x7b' hq.1 (by decide),
    safe_not_beq c '\x7d' hq.1 (by decide), safe_not_beq c '[' hq.1 (by decide),
    safe_not_beq c ']' hq.1 (by decide), safe_not_beq c '\\' hq.1 (by decide),
    safe_not_beq c '|' hq.1 (by decide), safe_not_beq c '(' hq.1 (by decide),
    safe_not_beq c ')' hq.1 (by decide)]
  rfl

/-- Plain text never begins with a quantifier. -/
theorem plain_postfixHead (rest : List Char)
    (h : ∀ c ∈ rest, plainChar c = true) : postfixHead rest = false := by
  cases rest with
  | nil => rfl
  | cons d r =>
    have hd := plain_not_special (h d (by simp))
    simp [postfixHead, not_special_beq '+' hd (by decide),
      not_special_beq '*' hd (by decide), not_special_beq '?' hd (by decide)]

/-- A plain character parses as a literal atom. -/
theorem parseSAtom_lit (c : Char) (rest : List Char) (hc : plainChar c = true)
    (hr : postfixHead rest = false) :
    parseSAtom (c :: rest) = some (SAtom.lit c, rest) := by
  have hs := plain_not_special hc
  have h1 : ¬ c = '[' := not_special_ne '[' hs (by decide)
  have h2 : ¬ c = '.' := not_special_ne '.' hs (by decide)
  simp [parseSAtom, h1, h2, hs, hr]

/-- Plain text parses to its list of literal atoms. -/
theorem parseRAtoms_lits (cs : List Char)
    (h : ∀ c ∈ cs, plainChar c = true) :
    parseRAtoms (cs.length + 1) cs = some (litAtoms cs) := by
  induction cs with
  | nil => rfl
  | cons c cs ih =>
    have hc := h c (by simp)
    have hrest : ∀ x ∈ cs, plainChar x = true :=
      fun x hx => h x (List.mem_cons_of_mem _ hx)
    have hg : groupOpen (c :: cs) = none :=
      groupOpen_of_ne c cs (not_special_ne '(' (plain_not_special hc) (by decide))
    have hsa : parseSAtom (c :: cs) = some (SAtom.lit c, cs) :=
      parseSAtom_lit c cs hc (plain_postfixHead cs hrest)
    simp [parseRAtoms, hg, hsa, ih hrest, litAtoms]

/-- Unfolding of `litAtoms` on a cons cell. -/
theorem litAtoms_cons (c : Char) (cs : List Char) :
    litAtoms (c :: cs) = RAtom.simple (SAtom.lit c) :: litAtoms cs := rfl

/-- Matching a literal atom list is exactly prefix testing, and it consumes
exactly the literal text. -/
theorem matchRAtoms_lits (cs : List Char) :
    ∀ p, matchRAtoms (litAtoms cs) p
      = if cs.isPrefixOf p then [([], p.drop cs.length)] else [] := by
  induction cs with
  | nil => intro p; simp [litAtoms, matchRAtoms, List.isPrefixOf]
  | cons c cs ih =>
    intro p
    cases p with
    | nil => simp [litAtoms_cons, matchRAtoms, matchesS, List.isPrefixOf]
    | cons d p' =>
      have e1 : matchRAtoms (litAtoms (c :: cs)) (d :: p')
          = (matchesS (SAtom.lit c) (d :: p')).flatMap
              fun r => matchRAtoms (litAtoms cs) r := rfl
      by_cases hd : d = c
      · rw [hd] at e1 ⊢
        rw [e1]
        have e2 : matchesS (SAtom.lit c) (c :: p') = [p'] := by
          simp [matchesS]
        rw [e2]
        have e3 : ([p'].flatMap fun r => matchRAtoms (litAtoms cs) r)
            = matchRAtoms (litAtoms cs) p' := by simp
        rw [e3, ih p']
        have e4 : (c :: cs).isPrefixOf (c :: p') = cs.isPrefixOf p' := by
          simp only [List.isPrefixOf, beq_self_eq_true, Bool.true_and]
        rw [e4, List.length_cons, List.drop_succ_cons]
      · rw [e1]
        have e2 : matchesS (SAtom.lit c) (d :: p') = [] := by
          simp [matchesS, hd]
        rw [e2]
        have e4 : (c :: cs).isPrefixOf (d :: p') = false := by
          have hcd : (c == d) = false := by
            simpa using fun e : c = d => hd e.symm
          simp only [List.isPrefixOf, hcd, Bool.false_and]
        rw [e4]
        simp

/-- Acceptance by a literal atom list is the Boolean prefix test. -/
theorem reMatch_lits_isSome (cs p : List Char) :
    (reMatch (litAtoms cs) p).isSome = cs.isPrefixOf p := by
  rw [reMatch, matchRAtoms_lits]
  cases h : cs.isPrefixOf p <;> simp [h]

/-- C2 amended: for a brace-free template whose characters are letters,
digits or `_ - ~ /` (quote-safe, non-metacharacter), the compiled matcher
accepts a request path IF AND ONLY IF the template is a prefix of the path:
the identical path is accepted, but — because the generated pattern is
anchored only at the start — every strictly longer path extending the
template is accepted too, contrary to the claim.  (Literal text is escaped
by URL percent-quoting rather than regex escaping, so outside this
character set a quote-safe `.` would even act as a wildcard.) -/
theorem C2_amended (tpl p : String)
    (h : ∀ c ∈ tpl.data, plainChar c = true) :
    templateAccepts tpl p = tpl.data.isPrefixOf p.data := by
  have hsafe : ∀ c ∈ tpl.data, quoteSafeChar c = true := by
    intro c hc
    have hc1 := h c hc
    simp only [plainChar, Bool.and_eq_true] at hc1
    exact hc1.1
  have hnb : ∀ c ∈ tpl.data, c ≠ '\x7b' ∧ c ≠ '\x7d' := by
    intro c hc
    constructor <;> intro e <;> (subst e; exact absurd (hsafe _ hc) (by decide))
  have hbi : braceIndices tpl.data = .ok [] :=
    braceIndicesAux_nobrace tpl.data hnb 0 0 0 []
  have hloop : regexpLoop tpl.data ['[', '^', '/', ']', '+'] [] 0 ['^'] [] []
      = .ok ('^' :: tpl.data, [], []) := by
    simp [regexpLoop, quote_plain tpl.data hsafe]
  have hpp : parsePattern ('^' :: tpl.data) = some (litAtoms tpl.data) := by
    simp only [parsePattern]
    exact parseRAtoms_lits tpl.data h
  have hreg : regexp tpl false false false false false
      = .ok { template := tpl, pattern := '^' :: tpl.data,
              compiled := some (litAtoms tpl.data), reverse := [],
              names := [], strictSlash := false } := by
    unfold regexp
    rw [hbi]
    simp [hloop, hpp]
  unfold templateAccepts
  rw [hreg]
  simp [RouteRegexp.matches, reMatch_lits_isSome]

/-- C2 amended witness: the template `/ab` is within the plain character
set, and the compiled matcher's verdict on the path `/ab` coincides with
the prefix test. -/
theorem C2_amended_witness :
    (∀ c ∈ ("/ab" : String).data, plainChar c = true)
    ∧ templateAccepts "/ab" "/ab"
        = ("/ab" : String).data.isPrefixOf ("/ab" : String).data :=
  ⟨by decide, C2_amended "/ab" "/ab" (by decide)⟩

end Forest
